import Mathlib

/-!
Verification development for the `micode_monitor` agent-protocol session bridge
(`src-tauri/src/backend/app_server.rs`).  The Rust code is shallowly embedded:
`serde_json::Value` becomes the inductive `Json`, the thread store becomes pure
functions on `List LocalThreadRecord`, and the effectful `turn/start` handler
becomes a pure function that also returns the list of externally visible
effects (session creations, store mutations, persisted items, emitted events,
protocol dispatches) in program order.
-/

/-- Shallow embedding of `serde_json::Value`. -/
inductive Json where
  | null
  | bool (b : Bool)
  | num (n : Int)
  | str (s : String)
  | arr (items : List Json)
  | obj (fields : List (String × Json))

/-- `Value::get(key)` on an object (serde maps have unique keys; first match). -/
def Json.get (v : Json) (key : String) : Option Json :=
  match v with
  | Json.obj fields => (fields.find? (fun p => p.1 == key)).map (fun p => p.2)
  | _ => none

/-- `Value::as_str`. -/
def Json.asStr : Json → Option String
  | Json.str s => some s
  | _ => none

/-- `Value::as_array`. -/
def Json.asArr : Json → Option (List Json)
  | Json.arr items => some items
  | _ => none

/-- `Value::as_bool`. -/
def Json.asBool : Json → Option Bool
  | Json.bool b => some b
  | _ => none

/-- Rust `char::to_ascii_lowercase`. -/
def asciiLowerChar (c : Char) : Char :=
  if 'A' ≤ c ∧ c ≤ 'Z' then Char.ofNat (c.toNat + 32) else c

/-- Rust `str::to_ascii_lowercase`. -/
def asciiLower (s : String) : String := String.mk (s.data.map asciiLowerChar)

/-- Rust `str::eq_ignore_ascii_case`. -/
def eqIgnoreAsciiCase (a b : String) : Bool := asciiLower a == asciiLower b

/-- Whether `pre` is a prefix of `l` (on character lists). -/
def listIsPrefixOf : List Char → List Char → Bool
  | [], _ => true
  | _ :: _, [] => false
  | a :: as, b :: bs => a == b && listIsPrefixOf as bs

/-- Whether `needle` occurs as a contiguous sublist of the second argument. -/
def listContainsSub (needle : List Char) : List Char → Bool
  | [] => listIsPrefixOf needle []
  | c :: rest => listIsPrefixOf needle (c :: rest) || listContainsSub needle rest

/-- Rust `str::contains` with a string pattern (substring search). -/
def strContains (hay pat : String) : Bool := listContainsSub pat.data hay.data

/-- Rust `str::ends_with` with a string pattern. -/
def strEndsWith (s suffix : String) : Bool :=
  listIsPrefixOf suffix.data.reverse s.data.reverse

/-- Rust `str::trim` (whitespace trim on both ends). -/
def strTrim (s : String) : String :=
  String.mk ((((s.data.dropWhile Char.isWhitespace).reverse).dropWhile Char.isWhitespace).reverse)

/-- Drop every leading occurrence of `c` from a character list. -/
def dropLeadingChar (c : Char) : List Char → List Char
  | [] => []
  | x :: xs => if x == c then dropLeadingChar c xs else x :: xs

/-- Rust `str::trim_matches` with a single-character pattern. -/
def trimMatchesChar (s : String) (c : Char) : String :=
  String.mk ((dropLeadingChar c ((dropLeadingChar c s.data).reverse)).reverse)

/-- `find_map` over a list (Rust `Iterator::find_map`). -/
def findMapOpt {α β : Type} (f : α → Option β) : List α → Option β
  | [] => none
  | a :: as =>
    match f a with
    | some b => some b
    | none => findMapOpt f as

/-- `acp_error_message`: extract `error.message` (default "ACP error") and
optional `error.data.details`, concatenated with ": " when details exist. -/
def acp_error_message (v : Json) : Option String :=
  match v.get "error" with
  | none => none
  | some err =>
    let message := ((err.get "message").bind Json.asStr).getD "ACP error"
    let details := (((err.get "data").bind (fun d => d.get "details")).bind Json.asStr).getD ""
    if details = "" then some message else some (message ++ ": " ++ details)

/-- `is_session_not_found_error`: the error message contains
"session not found" case-insensitively. -/
def is_session_not_found_error (v : Json) : Bool :=
  match acp_error_message v with
  | some msg => strContains (asciiLower msg) "session not found"
  | none => false

/-- `is_request_aborted_message`. -/
def is_request_aborted_message (message : String) : Bool :=
  strContains (asciiLower message) "request was aborted"

/-- `is_not_generating_message`. -/
def is_not_generating_message (message : String) : Bool :=
  strContains (asciiLower message) "not currently generating"

/-- `sanitize_approval_title`: trim, and treat "", "\x7b\x7d", "[]", "null",
"undefined" (case-insensitive) as absent. -/
def sanitize_approval_title (raw : Option String) : Option String :=
  match raw with
  | none => none
  | some r =>
    let title := strTrim r
    if title = "" ∨ title = "\x7b\x7d" ∨ title = "[]" ∨
        eqIgnoreAsciiCase title "null" = true ∨ eqIgnoreAsciiCase title "undefined" = true then
      none
    else
      some title

/-- `sanitize_tool_title`: additionally reject ".", ".." and "/". -/
def sanitize_tool_title (raw : Option String) : Option String :=
  match sanitize_approval_title raw with
  | none => none
  | some title =>
    let trimmed := strTrim title
    if trimmed = "." ∨ trimmed = ".." ∨ trimmed = "/" then none else some trimmed

/-- `extract_string_field`: first key whose value is a string. -/
def extract_string_field (value : Json) (keys : List String) : Option String :=
  findMapOpt (fun key => (value.get key).bind Json.asStr) keys

/-- `normalize_tool_name`: trim whitespace then double and single quotes. -/
def normalize_tool_name (raw : String) : Option String :=
  let normalized := trimMatchesChar (trimMatchesChar (strTrim raw) '"') (Char.ofNat 39)
  if normalized = "" then none else some normalized

/-- `infer_tool_name_from_title`: heuristic tool-name inference from a title. -/
def infer_tool_name_from_title (title : String) : Option String :=
  let lower := asciiLower title
  if strContains lower "=>" then some "edit"
  else if strContains lower "**/" || strContains lower "*." then some "glob"
  else if strEndsWith lower ".md" || strEndsWith lower ".txt" || strEndsWith lower ".json" ||
      strContains lower ".md:" || strContains lower ".txt:" || strContains lower ".json:" then
    some "edit"
  else none

/-- `ToolCallPresentation`. -/
structure ToolCallPresentation where
  server : Option String
  tool : Option String
  title : Option String
  arguments : Option Json
  result : Option String
  error : Option String

/-- The `Default` value of `ToolCallPresentation`. -/
def ToolCallPresentation.defaultValue : ToolCallPresentation :=
  ⟨none, none, none, none, none, none⟩

/-- `extract_tool_presentation_from_update`. -/
def extract_tool_presentation_from_update (update : Json) : ToolCallPresentation :=
  let title := sanitize_tool_title ((update.get "title").bind Json.asStr)
  let tool0 :=
    (extract_string_field update ["tool", "toolName", "name", "kind", "method", "action"]).bind
      normalize_tool_name
  let tool :=
    match tool0 with
    | some t => some t
    | none =>
      match title.bind infer_tool_name_from_title with
      | some t => some t
      | none =>
        ((update.get "content").bind (fun content =>
          extract_string_field content
            ["tool", "toolName", "name", "kind", "method", "action"])).bind normalize_tool_name
  let server0 :=
    (extract_string_field update
      ["server", "serverName", "mcpServer", "provider", "namespace"]).bind normalize_tool_name
  let server :=
    match server0 with
    | some s => some s
    | none => if tool.isSome then some "micode" else none
  { server := server
    tool := tool
    title := title
    arguments :=
      match update.get "arguments" with
      | some a => some a
      | none =>
        match update.get "content" with
        | some (Json.obj fields) => some (Json.obj fields)
        | _ => none
    result := (update.get "result").bind Json.asStr
    error := (update.get "error").bind Json.asStr }

/-- `merge_tool_presentation`: keep existing non-empty fields, fill gaps. -/
def merge_tool_presentation (current : Option ToolCallPresentation)
    (incoming : ToolCallPresentation) : ToolCallPresentation :=
  let merged := current.getD ToolCallPresentation.defaultValue
  let merged := { merged with server := if merged.server.isNone then incoming.server else merged.server }
  let merged := { merged with tool := if merged.tool.isNone then incoming.tool else merged.tool }
  let merged := { merged with title := if merged.title.isNone then incoming.title else merged.title }
  let merged := { merged with arguments := if merged.arguments.isNone then incoming.arguments else merged.arguments }
  let merged := { merged with result := if merged.result.isNone then incoming.result else merged.result }
  let merged := { merged with error := if merged.error.isNone then incoming.error else merged.error }
  if merged.server.isNone ∧ merged.tool.isSome then { merged with server := some "micode" }
  else merged

/-- `tool_call_display_title`: prefer "Tool: server / tool", then "Tool: tool",
then a sanitized title, then "Tool Call". -/
def tool_call_display_title (presentation : ToolCallPresentation) : String :=
  match presentation.server, presentation.tool with
  | some server, some tool => "Tool: " ++ server ++ " / " ++ tool
  | _, some tool => "Tool: " ++ tool
  | _, _ =>
    match presentation.title with
    | some title => "Tool: " ++ title
    | none => "Tool Call"

/-- `WorkspaceSession::send_response` approval mapping: given the stored
original request params and the caller's result, compute the protocol result
that is written back (the `mapped` value in the source). -/
def send_response_mapped (original result : Json) : Json :=
  let options := ((original.get "options").bind Json.asArr).getD []
  let decision := ((result.get "decision").bind Json.asStr).getD "decline"
  let preferred :=
    if decision = "accept" then ["allow_once", "allow_always"]
    else ["reject_once", "reject_always"]
  let optionId :=
    match
      findMapOpt (fun kind =>
        findMapOpt (fun opt =>
          if (opt.get "kind").bind Json.asStr == some kind then
            (opt.get "optionId").bind Json.asStr
          else none) options) preferred
    with
    | some oid => some oid
    | none => findMapOpt (fun opt => (opt.get "optionId").bind Json.asStr) options
  match optionId with
  | some oid =>
    Json.obj [("outcome", Json.obj [("outcome", Json.str "selected"), ("optionId", Json.str oid)])]
  | none => Json.obj [("outcome", Json.obj [("outcome", Json.str "cancelled")])]

/-- The two-option approval request of the claim. -/
def approvalTwoOptions : Json :=
  Json.obj [("options", Json.arr
    [Json.obj [("kind", Json.str "allow_once"), ("optionId", Json.str "A")],
     Json.obj [("kind", Json.str "reject_once"), ("optionId", Json.str "B")]])]

/-- An approval request whose options list is empty. -/
def approvalNoOptions : Json := Json.obj [("options", Json.arr [])]

/-- A decision payload as received from the caller. -/
def decisionPayload (decision : String) : Json :=
  Json.obj [("decision", Json.str decision)]


/-- `LocalThreadRecord` (the on-disk thread record). -/
structure LocalThreadRecord where
  thread_id : String
  session_id : String
  title : String
  archived : Bool
  updated_at : Int
  message_index : Nat
deriving DecidableEq, Repr

instance : Inhabited LocalThreadRecord :=
  ⟨{ thread_id := "", session_id := "", title := "", archived := false,
     updated_at := 0, message_index := 0 }⟩

/-- Clear a record's session id, leaving every other field unchanged
(`entry.session_id.clear()` in the source). -/
def clearSession (r : LocalThreadRecord) : LocalThreadRecord := { r with session_id := "" }

/-- The `(updated_at, message_index)` pair of a record. -/
def recPair (r : LocalThreadRecord) : Int × Nat := (r.updated_at, r.message_index)

/-- Strict lexicographic `>` on `(updated_at, message_index)` pairs, as Rust's
derived tuple `Ord` compares them. -/
def pairGt (a b : Int × Nat) : Bool :=
  decide (b.1 < a.1) || (decide (a.1 = b.1) && decide (b.2 < a.2))

/-- Lookup in the `canonical` map (`HashMap<String, usize>`); insertion is by
cons so the most recent binding for a session id wins, matching map insert. -/
def lookupIdx (canonical : List (String × Nat)) (sid : String) : Option Nat :=
  (canonical.find? (fun p => p.1 == sid)).map (fun p => p.2)

/-- The loop body of `LocalThreadStore::repair_session_collisions`, iterating
`idx` over the record vector while mutating it in place. -/
def repairFrom (records : List LocalThreadRecord) (canonical : List (String × Nat))
    (idx : Nat) : List LocalThreadRecord :=
  if h : idx < records.length then
    if (records[idx]).session_id = "" then
      repairFrom records canonical (idx + 1)
    else
      match lookupIdx canonical (records[idx]).session_id with
      | none => repairFrom records (((records[idx]).session_id, idx) :: canonical) (idx + 1)
      | some prev =>
        if pairGt (recPair records[idx]) (recPair (records.getD prev default)) then
          repairFrom (records.set prev (clearSession (records.getD prev default)))
            (((records[idx]).session_id, idx) :: canonical) (idx + 1)
        else
          repairFrom (records.set idx (clearSession records[idx])) canonical (idx + 1)
  else records
termination_by records.length - idx
decreasing_by
  all_goals first
  | omega
  | (simp only [List.length_set]; omega)

/-- `LocalThreadStore::repair_session_collisions` on the record list (the
source also reports whether anything changed, which only drives persistence). -/
def repair_session_collisions (records : List LocalThreadRecord) : List LocalThreadRecord :=
  repairFrom records [] 0

/-- `LocalThreadStore::delete`: `records.retain(|entry| entry.thread_id != thread_id)`
(and removal of the thread's item-log file, not modelled here). -/
def LocalThreadStore.delete (records : List LocalThreadRecord) (threadId : String) :
    List LocalThreadRecord :=
  records.filter (fun entry => entry.thread_id ≠ threadId)

/-- Lookup in a string-keyed `HashMap<String, String>` modelled as an
association list. -/
def lookupAssoc (m : List (String × String)) (k : String) : Option String :=
  (m.find? (fun p => p.1 == k)).map (fun p => p.2)

/-- The `thread/archive` branch of `WorkspaceSession::send_request`: a
background thread is only unregistered; otherwise the store record is deleted.
Returns the remaining background map and record list. -/
def thread_archive (backgroundThreads : List (String × String))
    (records : List LocalThreadRecord) (threadId : String) :
    List (String × String) × List LocalThreadRecord :=
  match lookupAssoc backgroundThreads threadId with
  | some _ => (backgroundThreads.filter (fun p => p.1 ≠ threadId), records)
  | none => (backgroundThreads, LocalThreadStore.delete records threadId)

/-- The derived id of a thread item: `item.get("id").and_then(Value::as_str)`. -/
def threadItemId (item : Json) : Option String := (item.get "id").bind Json.asStr

/-- `LocalThreadStore::upsert_thread_item` on the loaded item list: replace the
first entry with the same id in place, else append; items without a string id
are always appended. -/
def upsert_thread_item (items : List Json) (item : Json) : List Json :=
  match threadItemId item with
  | some itemId =>
    match items.findIdx? (fun entry => threadItemId entry == some itemId) with
    | some idx => items.set idx item
    | none => items ++ [item]
  | none => items ++ [item]

/-- Unfolding of `upsert_thread_item` over a cons cell, for an item that has an
id. -/
theorem upsert_thread_item_cons (e : Json) (rest : List Json) (item : Json) (s : String)
    (h : threadItemId item = some s) :
    upsert_thread_item (e :: rest) item =
      if threadItemId e == some s then item :: rest
      else e :: upsert_thread_item rest item := by
  simp only [upsert_thread_item, h, List.findIdx?_cons]
  by_cases he : (threadItemId e == some s) = true
  · simp [he]
  · simp only [Bool.not_eq_true] at he
    cases hrest : rest.findIdx? (fun entry => threadItemId entry == some s) with
    | none => simp [he, hrest]
    | some idx => simp [he, hrest, List.set_cons_succ]

/-- After one upsert of an item with id `s` into a log holding at most one
entry with id `s`, the entries with id `s` are exactly `[item]` and the other
entries are untouched. -/
theorem upsert_thread_item_filter (items : List Json) (item : Json) (s : String)
    (h : threadItemId item = some s)
    (huniq : (items.filter (fun e => threadItemId e == some s)).length ≤ 1) :
    (upsert_thread_item items item).filter (fun e => threadItemId e == some s) = [item] ∧
    (upsert_thread_item items item).filter (fun e => !(threadItemId e == some s)) =
      items.filter (fun e => !(threadItemId e == some s)) := by
  induction items with
  | nil =>
    simp [upsert_thread_item, h, List.filter]
  | cons e rest ih =>
    rw [upsert_thread_item_cons e rest item s h]
    by_cases he : (threadItemId e == some s) = true
    · simp only [he, if_true]
      have hrest : rest.filter (fun e => threadItemId e == some s) = [] := by
        have := huniq
        simp only [List.filter_cons, he, if_true, List.length_cons] at this
        have hlen : (rest.filter (fun e => threadItemId e == some s)).length = 0 := by omega
        exact List.length_eq_zero.mp hlen
      constructor
      · simp [List.filter_cons, h, hrest]
      · simp [List.filter_cons, he, h]
    · simp only [Bool.not_eq_true] at he
      simp only [he, Bool.false_eq_true, if_false]
      have huniq' : (rest.filter (fun e => threadItemId e == some s)).length ≤ 1 := by
        have := huniq
        simpa [List.filter_cons, he] using this
      obtain ⟨ih1, ih2⟩ := ih huniq'
      constructor
      · simpa [List.filter_cons, he] using ih1
      · simpa [List.filter_cons, he] using ih2

/-- C8 (amended): for a log holding at most one entry with the shared id,
upserting two items with that id leaves exactly one entry with the id, holding
the later item, and leaves the entries with other ids exactly as they were
(order included). -/
theorem c8_upsert_idempotent (items : List Json) (i1 i2 : Json) (s : String)
    (h1 : threadItemId i1 = some s) (h2 : threadItemId i2 = some s)
    (huniq : (items.filter (fun e => threadItemId e == some s)).length ≤ 1) :
    ((upsert_thread_item (upsert_thread_item items i1) i2).filter
        (fun e => threadItemId e == some s) = [i2]) ∧
    ((upsert_thread_item (upsert_thread_item items i1) i2).filter
        (fun e => !(threadItemId e == some s)) =
      items.filter (fun e => !(threadItemId e == some s))) := by
  obtain ⟨f1, g1⟩ := upsert_thread_item_filter items i1 s h1 huniq
  have huniq1 : ((upsert_thread_item items i1).filter
      (fun e => threadItemId e == some s)).length ≤ 1 := by
    rw [f1]; simp
  obtain ⟨f2, g2⟩ := upsert_thread_item_filter (upsert_thread_item items i1) i2 s h2 huniq1
  exact ⟨f2, g2.trans g1⟩

/-- Witness for C8: a concrete application of the amended theorem. -/
theorem c8_upsert_idempotent_witness :
    ((upsert_thread_item (upsert_thread_item
        [Json.obj [("id", Json.str "b"), ("v", Json.num 0)]]
        (Json.obj [("id", Json.str "a"), ("v", Json.num 1)]))
        (Json.obj [("id", Json.str "a"), ("v", Json.num 2)])).filter
        (fun e => threadItemId e == some "a") =
      [Json.obj [("id", Json.str "a"), ("v", Json.num 2)]]) ∧
    ((upsert_thread_item (upsert_thread_item
        [Json.obj [("id", Json.str "b"), ("v", Json.num 0)]]
        (Json.obj [("id", Json.str "a"), ("v", Json.num 1)]))
        (Json.obj [("id", Json.str "a"), ("v", Json.num 2)])).filter
        (fun e => !(threadItemId e == some "a")) =
      [Json.obj [("id", Json.str "b"), ("v", Json.num 0)]].filter
        (fun e => !(threadItemId e == some "a"))) :=
  c8_upsert_idempotent [Json.obj [("id", Json.str "b"), ("v", Json.num 0)]]
    (Json.obj [("id", Json.str "a"), ("v", Json.num 1)])
    (Json.obj [("id", Json.str "a"), ("v", Json.num 2)]) "a" rfl rfl (by decide)

/-- Counterexample for C8 as stated: on a log that already holds two entries
with id "a", upserting two items with id "a" leaves two entries with that id,
not exactly one. -/
theorem c8_counterexample :
    ¬ (((upsert_thread_item (upsert_thread_item
        [Json.obj [("id", Json.str "a"), ("v", Json.num 1)],
         Json.obj [("id", Json.str "a"), ("v", Json.num 2)]]
        (Json.obj [("id", Json.str "a"), ("v", Json.num 3)]))
        (Json.obj [("id", Json.str "a"), ("v", Json.num 4)])).filter
        (fun e => threadItemId e == some "a")).length = 1) := by
  intro hcontra
  have : ((upsert_thread_item (upsert_thread_item
        [Json.obj [("id", Json.str "a"), ("v", Json.num 1)],
         Json.obj [("id", Json.str "a"), ("v", Json.num 2)]]
        (Json.obj [("id", Json.str "a"), ("v", Json.num 3)]))
        (Json.obj [("id", Json.str "a"), ("v", Json.num 4)])).filter
        (fun e => threadItemId e == some "a")).length = 2 := by rfl
  omega

/-- C5: with options `[allow_once "A", reject_once "B"]`, an "accept" decision
resolves to option "A" and a "decline" decision to option "B"; with an empty
option list either decision resolves to a "cancelled" outcome. -/
theorem c5_approval_round_trip :
    send_response_mapped approvalTwoOptions (decisionPayload "accept") =
      Json.obj [("outcome", Json.obj [("outcome", Json.str "selected"),
        ("optionId", Json.str "A")])] ∧
    send_response_mapped approvalTwoOptions (decisionPayload "decline") =
      Json.obj [("outcome", Json.obj [("outcome", Json.str "selected"),
        ("optionId", Json.str "B")])] ∧
    send_response_mapped approvalNoOptions (decisionPayload "accept") =
      Json.obj [("outcome", Json.obj [("outcome", Json.str "cancelled")])] ∧
    send_response_mapped approvalNoOptions (decisionPayload "decline") =
      Json.obj [("outcome", Json.obj [("outcome", Json.str "cancelled")])] :=
  ⟨rfl, rfl, rfl, rfl⟩

/-- C9: a notification with explicit server "micode" and tool "glob" yields the
display title "Tool: micode / glob", and the title "abc.md: foo => bar" infers
tool "edit". -/
theorem c9_tool_title_derivation :
    tool_call_display_title (extract_tool_presentation_from_update
      (Json.obj [("server", Json.str "micode"), ("tool", Json.str "glob")])) =
      "Tool: micode / glob" ∧
    infer_tool_name_from_title "abc.md: foo => bar" = some "edit" :=
  ⟨rfl, rfl⟩

/-- C6 counterexample: archiving the only (non-background, non-archived) thread
"t1" physically removes its record from the record set; no record with that id
remains at all, in particular none with the archived flag set. -/
theorem c6_archive_counterexample :
    ¬ ∃ r ∈ (thread_archive []
        [{ thread_id := "t1", session_id := "s1", title := "T", archived := false,
           updated_at := 5, message_index := 2 }] "t1").2,
      r.thread_id = "t1" := by
  decide

/-- C6 (amended): for a non-background thread id present in the store,
`thread/archive` physically removes every record with that id (the record set
shrinks), keeps all other records, and also deletes the thread's item log
(file removal, outside this model). -/
theorem c6_archive_removes (backgroundThreads : List (String × String))
    (records : List LocalThreadRecord) (tid : String)
    (hbg : lookupAssoc backgroundThreads tid = none)
    (hpresent : ∃ r ∈ records, r.thread_id = tid) :
    (∀ r ∈ (thread_archive backgroundThreads records tid).2, r.thread_id ≠ tid) ∧
    ((thread_archive backgroundThreads records tid).2.length < records.length) ∧
    (∀ r ∈ records, r.thread_id ≠ tid → r ∈ (thread_archive backgroundThreads records tid).2) := by
  have harch : (thread_archive backgroundThreads records tid).2 =
      LocalThreadStore.delete records tid := by
    simp [thread_archive, hbg]
  rw [harch]
  refine ⟨?_, ?_, ?_⟩
  · intro r hr
    have := List.of_mem_filter hr
    simpa using this
  · obtain ⟨r, hrmem, hrid⟩ := hpresent
    have hlt : (records.filter (fun entry => decide (entry.thread_id ≠ tid))).length <
        records.length := by
      rw [List.length_filter_lt_length_iff_exists]
      exact ⟨r, hrmem, by simp [hrid]⟩
    simpa [LocalThreadStore.delete] using hlt
  · intro r hrmem hrid
    exact List.mem_filter.mpr ⟨hrmem, by simpa using hrid⟩

/-- Concrete records used by witnesses. -/
def sampleRecordT1 : LocalThreadRecord :=
  { thread_id := "t1", session_id := "s1", title := "A", archived := false,
    updated_at := 5, message_index := 2 }

/-- Concrete records used by witnesses. -/
def sampleRecordT2 : LocalThreadRecord :=
  { thread_id := "t2", session_id := "s2", title := "B", archived := false,
    updated_at := 7, message_index := 1 }

/-- Witness for C6: the amended archive theorem at a concrete two-record store. -/
theorem c6_archive_removes_witness :
    (∀ r ∈ (thread_archive [] [sampleRecordT1, sampleRecordT2] "t1").2, r.thread_id ≠ "t1") ∧
    ((thread_archive [] [sampleRecordT1, sampleRecordT2] "t1").2.length <
      ([sampleRecordT1, sampleRecordT2] : List LocalThreadRecord).length) ∧
    (∀ r ∈ [sampleRecordT1, sampleRecordT2], r.thread_id ≠ "t1" →
      r ∈ (thread_archive [] [sampleRecordT1, sampleRecordT2] "t1").2) :=
  c6_archive_removes [] [sampleRecordT1, sampleRecordT2] "t1" rfl
    ⟨sampleRecordT1, by simp [sampleRecordT1]⟩

/-- `getD` after `set` at the written index. -/
theorem getD_set_self (l : List LocalThreadRecord) (i : Nat) (a : LocalThreadRecord)
    (h : i < l.length) : (l.set i a).getD i default = a := by
  rw [List.getD_eq_getElem _ _ (by simpa using h)]
  exact List.getElem_set_self _

/-- `getD` after `set` at a different index. -/
theorem getD_set_ne (l : List LocalThreadRecord) (i j : Nat) (a : LocalThreadRecord)
    (h : i ≠ j) : (l.set i a).getD j default = l.getD j default := by
  by_cases hj : j < l.length
  · rw [List.getD_eq_getElem _ _ (by simpa using hj), List.getD_eq_getElem _ _ hj]
    exact List.getElem_set_of_ne h a _
  · rw [List.getD_eq_default _ _ (by simpa using Nat.le_of_not_lt hj),
      List.getD_eq_default _ _ (Nat.le_of_not_lt hj)]

/-- `pairGt` is irreflexive. -/
theorem pairGt_irrefl (a : Int × Nat) : pairGt a a = false := by
  simp [pairGt]

/-- `pairGt` is transitive. -/
theorem pairGt_trans {a b c : Int × Nat} (h1 : pairGt a b = true) (h2 : pairGt b c = true) :
    pairGt a c = true := by
  simp only [pairGt, Bool.or_eq_true, Bool.and_eq_true, decide_eq_true_eq] at h1 h2 ⊢
  rcases h1 with h1 | ⟨h1a, h1b⟩ <;> rcases h2 with h2 | ⟨h2a, h2b⟩
  · exact Or.inl (lt_trans h2 h1)
  · exact Or.inl (h2a ▸ h1)
  · exact Or.inl (h1a ▸ h2)
  · exact Or.inr ⟨h1a.trans h2a, lt_trans h2b h1b⟩

/-- Unfolding `lookupIdx` over a cons cell. -/
theorem lookupIdx_cons (sid : String) (i : Nat) (canonical : List (String × Nat)) (s : String) :
    lookupIdx ((sid, i) :: canonical) s = if sid = s then some i else lookupIdx canonical s := by
  by_cases h : sid = s
  · simp [lookupIdx, List.find?, h]
  · simp only [lookupIdx, List.find?]
    have : ((sid, i).1 == s) = false := by simpa using h
    simp [this, h, lookupIdx]

/-- `clearSession` clears the session id. -/
theorem clearSession_session_id (r : LocalThreadRecord) : (clearSession r).session_id = "" := rfl

/-- The default record has an empty session id. -/
theorem default_session_id : (default : LocalThreadRecord).session_id = "" := rfl

/-- Loop invariant for `repairFrom`: `orig` is the original record list, `cur`
the current (partially repaired) list, `canonical` the winner table, and `idx`
the position of the loop.  The invariant ties the table to the processed
prefix: each non-empty session id appears at most once there, its holder is in
the table, holds a pair that no processed original collider strictly exceeds,
and every entry is the original record or its session-cleared copy. -/
structure RepairInv (orig cur : List LocalThreadRecord) (canonical : List (String × Nat))
    (idx : Nat) : Prop where
  len : cur.length = orig.length
  suffix : ∀ j, idx ≤ j → cur.getD j default = orig.getD j default
  pointwise : ∀ j, cur.getD j default = orig.getD j default ∨
    cur.getD j default = clearSession (orig.getD j default)
  canonSound : ∀ sid k, lookupIdx canonical sid = some k →
    k < idx ∧ (cur.getD k default).session_id = sid ∧ sid ≠ ""
  canonComplete : ∀ j, j < idx → (cur.getD j default).session_id ≠ "" →
    lookupIdx canonical ((cur.getD j default).session_id) = some j
  canonNone : ∀ sid, sid ≠ "" → lookupIdx canonical sid = none →
    ∀ j, j < idx → (orig.getD j default).session_id ≠ sid
  maximal : ∀ sid k, lookupIdx canonical sid = some k →
    ∀ j, j < idx → (orig.getD j default).session_id = sid →
    pairGt (recPair (orig.getD j default)) (recPair (orig.getD k default)) = false

/-- If the current record at `k` still holds a session id, it is untouched. -/
theorem RepairInv.curEqOrig {orig cur : List LocalThreadRecord}
    {canonical : List (String × Nat)} {idx : Nat}
    (inv : RepairInv orig cur canonical idx) (k : Nat)
    (hk : (cur.getD k default).session_id ≠ "") :
    cur.getD k default = orig.getD k default := by
  rcases inv.pointwise k with h | h
  · exact h
  · exact absurd (h ▸ clearSession_session_id _) hk

/-- Invariant step: the record at `idx` has no session id. -/
theorem RepairInv.stepEmpty {orig cur : List LocalThreadRecord}
    {canonical : List (String × Nat)} {idx : Nat}
    (inv : RepairInv orig cur canonical idx) (hidx : idx < cur.length)
    (hsid : (cur.getD idx default).session_id = "") :
    RepairInv orig cur canonical (idx + 1) where
  len := inv.len
  suffix := fun j hj => inv.suffix j (by omega)
  pointwise := inv.pointwise
  canonSound := fun sid k hk =>
    let h := inv.canonSound sid k hk
    ⟨by omega, h.2⟩
  canonComplete := by
    intro j hj hne
    rcases Nat.lt_or_ge j idx with hlt | hge
    · exact inv.canonComplete j hlt hne
    · have : j = idx := by omega
      subst this
      exact absurd hsid hne
  canonNone := by
    intro sid hs hnone j hj
    rcases Nat.lt_or_ge j idx with hlt | hge
    · exact inv.canonNone sid hs hnone j hlt
    · have : j = idx := by omega
      subst this
      rw [← inv.suffix j (by omega), hsid]
      exact fun h => hs h.symm
  maximal := by
    intro sid k hk j hj hsidj
    rcases Nat.lt_or_ge j idx with hlt | hge
    · exact inv.maximal sid k hk j hlt hsidj
    · have : j = idx := by omega
      subst this
      have hnil : (orig.getD j default).session_id = "" := by
        rw [← inv.suffix j (by omega)]; exact hsid
      have := (inv.canonSound sid k hk).2.2
      exact absurd (hnil ▸ hsidj) (fun h => this h.symm)

/-- Invariant step: the record at `idx` holds a fresh (unseen) session id. -/
theorem RepairInv.stepNew {orig cur : List LocalThreadRecord}
    {canonical : List (String × Nat)} {idx : Nat}
    (inv : RepairInv orig cur canonical idx) (hidx : idx < cur.length)
    (hsid : (cur.getD idx default).session_id ≠ "")
    (hlook : lookupIdx canonical ((cur.getD idx default).session_id) = none) :
    RepairInv orig cur (((cur.getD idx default).session_id, idx) :: canonical) (idx + 1) where
  len := inv.len
  suffix := fun j hj => inv.suffix j (by omega)
  pointwise := inv.pointwise
  canonSound := by
    intro sid k hk
    rw [lookupIdx_cons] at hk
    by_cases heq : (cur.getD idx default).session_id = sid
    · rw [if_pos heq] at hk
      cases hk
      exact ⟨by omega, heq, heq ▸ hsid⟩
    · rw [if_neg heq] at hk
      have h := inv.canonSound sid k hk
      exact ⟨by omega, h.2⟩
  canonComplete := by
    intro j hj hne
    rcases Nat.lt_or_ge j idx with hlt | hge
    · have hold := inv.canonComplete j hlt hne
      rw [lookupIdx_cons]
      by_cases heq : (cur.getD idx default).session_id = (cur.getD j default).session_id
      · rw [heq] at hlook
        rw [hlook] at hold
        cases hold
      · rw [if_neg heq]
        exact hold
    · have : j = idx := by omega
      subst this
      rw [lookupIdx_cons, if_pos rfl]
  canonNone := by
    intro sid hs hnone j hj
    rw [lookupIdx_cons] at hnone
    by_cases heq : (cur.getD idx default).session_id = sid
    · rw [if_pos heq] at hnone
      cases hnone
    · rw [if_neg heq] at hnone
      rcases Nat.lt_or_ge j idx with hlt | hge
      · exact inv.canonNone sid hs hnone j hlt
      · have : j = idx := by omega
        subst this
        rw [← inv.suffix j (by omega)]
        exact fun h => heq h
  maximal := by
    intro sid k hk j hj hsidj
    rw [lookupIdx_cons] at hk
    by_cases heq : (cur.getD idx default).session_id = sid
    · rw [if_pos heq] at hk
      cases hk
      rcases Nat.lt_or_ge j idx with hlt | hge
      · exact absurd hsidj (inv.canonNone sid (heq ▸ hsid) (heq ▸ hlook) j hlt)
      · have : j = idx := by omega
        subst this
        exact pairGt_irrefl _
    · rw [if_neg heq] at hk
      rcases Nat.lt_or_ge j idx with hlt | hge
      · exact inv.maximal sid k hk j hlt hsidj
      · have : j = idx := by omega
        subst this
        rw [← inv.suffix j (by omega)] at hsidj
        exact absurd hsidj heq

/-- Invariant step: the record at `idx` collides and strictly beats the current
canonical holder `prev`, which gets its session id cleared. -/
theorem RepairInv.stepTake {orig cur : List LocalThreadRecord}
    {canonical : List (String × Nat)} {idx prev : Nat}
    (inv : RepairInv orig cur canonical idx) (hidx : idx < cur.length)
    (hsid : (cur.getD idx default).session_id ≠ "")
    (hlook : lookupIdx canonical ((cur.getD idx default).session_id) = some prev)
    (hgt : pairGt (recPair (cur.getD idx default)) (recPair (cur.getD prev default)) = true) :
    RepairInv orig (cur.set prev (clearSession (cur.getD prev default)))
      (((cur.getD idx default).session_id, idx) :: canonical) (idx + 1) := by
  obtain ⟨hprevlt, hprevsid, hsne⟩ := inv.canonSound _ prev hlook
  have hprevne : prev ≠ idx := by omega
  have hCurPrevOrig : cur.getD prev default = orig.getD prev default :=
    inv.curEqOrig prev (by rw [hprevsid]; exact hsid)
  have hCurIdxOrig : cur.getD idx default = orig.getD idx default := inv.suffix idx (le_refl _)
  have hgt' : pairGt (recPair (orig.getD idx default)) (recPair (orig.getD prev default)) = true := by
    rw [← hCurIdxOrig, ← hCurPrevOrig]; exact hgt
  refine ⟨?_, ?_, ?_, ?_, ?_, ?_, ?_⟩
  · rw [List.length_set]; exact inv.len
  · intro j hj
    rw [getD_set_ne _ prev j _ (by omega)]
    exact inv.suffix j (by omega)
  · intro j
    by_cases hjp : j = prev
    · subst hjp
      rw [getD_set_self _ _ _ (by omega), hCurPrevOrig]
      exact Or.inr rfl
    · rw [getD_set_ne _ prev j _ (fun h => hjp h.symm)]
      exact inv.pointwise j
  · intro s k hk
    rw [lookupIdx_cons] at hk
    by_cases heq : (cur.getD idx default).session_id = s
    · rw [if_pos heq] at hk
      cases hk
      refine ⟨by omega, ?_, heq ▸ hsid⟩
      rw [getD_set_ne _ prev idx _ hprevne]
      exact heq
    · rw [if_neg heq] at hk
      obtain ⟨hklt, hksid, hkne⟩ := inv.canonSound s k hk
      have hkp : k ≠ prev := by
        intro h
        subst h
        exact heq (hprevsid.symm.trans hksid)
      refine ⟨by omega, ?_, hkne⟩
      rw [getD_set_ne _ prev k _ (fun h => hkp h.symm)]
      exact hksid
  · intro j hj hne
    by_cases hjp : j = prev
    · subst hjp
      rw [getD_set_self _ _ _ (by omega), clearSession_session_id] at hne
      exact absurd rfl hne
    · rw [getD_set_ne _ prev j _ (fun h => hjp h.symm)] at hne ⊢
      rcases Nat.lt_or_ge j idx with hlt | hge
      · have hold := inv.canonComplete j hlt hne
        rw [lookupIdx_cons]
        by_cases heq : (cur.getD idx default).session_id = (cur.getD j default).session_id
        · rw [← heq] at hold
          rw [hlook] at hold
          cases hold
          exact absurd rfl hjp
        · rw [if_neg heq]
          exact hold
      · have : j = idx := by omega
        subst this
        rw [lookupIdx_cons, if_pos rfl]
  · intro s hs hnone j hj
    rw [lookupIdx_cons] at hnone
    by_cases heq : (cur.getD idx default).session_id = s
    · rw [if_pos heq] at hnone
      cases hnone
    · rw [if_neg heq] at hnone
      rcases Nat.lt_or_ge j idx with hlt | hge
      · exact inv.canonNone s hs hnone j hlt
      · have : j = idx := by omega
        subst this
        rw [← hCurIdxOrig]
        exact fun h => heq h
  · intro s k hk j hj hsidj
    rw [lookupIdx_cons] at hk
    by_cases heq : (cur.getD idx default).session_id = s
    · rw [if_pos heq] at hk
      cases hk
      rcases Nat.lt_or_ge j idx with hlt | hge
      · have hmax := inv.maximal s prev (heq ▸ hlook) j hlt hsidj
        rcases Bool.eq_false_or_eq_true
            (pairGt (recPair (orig.getD j default)) (recPair (orig.getD idx default))) with h | h
        · have := pairGt_trans h hgt'
          rw [hmax] at this
          cases this
        · exact h
      · have : j = idx := by omega
        subst this
        exact pairGt_irrefl _
    · rw [if_neg heq] at hk
      rcases Nat.lt_or_ge j idx with hlt | hge
      · exact inv.maximal s k hk j hlt hsidj
      · have : j = idx := by omega
        subst this
        rw [← hCurIdxOrig] at hsidj
        exact absurd hsidj heq

/-- Invariant step: the record at `idx` collides and does not beat the current
canonical holder; the record at `idx` gets its session id cleared. -/
theorem RepairInv.stepKeep {orig cur : List LocalThreadRecord}
    {canonical : List (String × Nat)} {idx prev : Nat}
    (inv : RepairInv orig cur canonical idx) (hidx : idx < cur.length)
    (hsid : (cur.getD idx default).session_id ≠ "")
    (hlook : lookupIdx canonical ((cur.getD idx default).session_id) = some prev)
    (hgt : pairGt (recPair (cur.getD idx default)) (recPair (cur.getD prev default)) = false) :
    RepairInv orig (cur.set idx (clearSession (cur.getD idx default))) canonical (idx + 1) := by
  obtain ⟨hprevlt, hprevsid, hsne⟩ := inv.canonSound _ prev hlook
  have hCurPrevOrig : cur.getD prev default = orig.getD prev default :=
    inv.curEqOrig prev (by rw [hprevsid]; exact hsid)
  have hCurIdxOrig : cur.getD idx default = orig.getD idx default := inv.suffix idx (le_refl _)
  have hgt' : pairGt (recPair (orig.getD idx default)) (recPair (orig.getD prev default)) = false := by
    rw [← hCurIdxOrig, ← hCurPrevOrig]; exact hgt
  refine ⟨?_, ?_, ?_, ?_, ?_, ?_, ?_⟩
  · rw [List.length_set]; exact inv.len
  · intro j hj
    rw [getD_set_ne _ idx j _ (by omega)]
    exact inv.suffix j (by omega)
  · intro j
    by_cases hji : j = idx
    · subst hji
      rw [getD_set_self _ _ _ (by omega), hCurIdxOrig]
      exact Or.inr rfl
    · rw [getD_set_ne _ idx j _ (fun h => hji h.symm)]
      exact inv.pointwise j
  · intro s k hk
    obtain ⟨hklt, hksid, hkne⟩ := inv.canonSound s k hk
    refine ⟨by omega, ?_, hkne⟩
    rw [getD_set_ne _ idx k _ (by omega)]
    exact hksid
  · intro j hj hne
    by_cases hji : j = idx
    · subst hji
      rw [getD_set_self _ _ _ (by omega), clearSession_session_id] at hne
      exact absurd rfl hne
    · rw [getD_set_ne _ idx j _ (fun h => hji h.symm)] at hne ⊢
      have hlt : j < idx := by omega
      exact inv.canonComplete j hlt hne
  · intro s hs hnone j hj
    rcases Nat.lt_or_ge j idx with hlt | hge
    · exact inv.canonNone s hs hnone j hlt
    · have : j = idx := by omega
      subst this
      rw [← hCurIdxOrig]
      intro h
      rw [h] at hlook
      rw [hlook] at hnone
      cases hnone
  · intro s k hk j hj hsidj
    rcases Nat.lt_or_ge j idx with hlt | hge
    · exact inv.maximal s k hk j hlt hsidj
    · have : j = idx := by omega
      subst this
      rw [← hCurIdxOrig] at hsidj
      rw [hsidj] at hlook
      rw [hlook] at hk
      cases hk
      exact hgt'

/-- The invariant holds trivially before the loop starts. -/
theorem repairInv_init (orig : List LocalThreadRecord) : RepairInv orig orig [] 0 where
  len := rfl
  suffix := fun _ _ => rfl
  pointwise := fun _ => Or.inl rfl
  canonSound := by intro sid k hk; simp [lookupIdx] at hk
  canonComplete := by intro j hj; exact absurd hj (Nat.not_lt_zero j)
  canonNone := by intro sid hs hn j hj; exact absurd hj (Nat.not_lt_zero j)
  maximal := by intro sid k hk; simp [lookupIdx] at hk

/-- Running the repair loop from any state satisfying the invariant ends in a
state satisfying the invariant with the loop index past the end. -/
theorem repairFrom_spec (orig : List LocalThreadRecord) :
    ∀ (n : Nat) (cur : List LocalThreadRecord) (canonical : List (String × Nat)) (idx : Nat),
      cur.length - idx ≤ n →
      RepairInv orig cur canonical idx →
      ∃ canonical2 idx2, orig.length ≤ idx2 ∧
        RepairInv orig (repairFrom cur canonical idx) canonical2 idx2 := by
  intro n
  induction n with
  | zero =>
    intro cur canonical idx hn inv
    have hge : ¬ idx < cur.length := by omega
    rw [repairFrom, dif_neg hge]
    have hl := inv.len
    exact ⟨canonical, idx, by omega, inv⟩
  | succ m ih =>
    intro cur canonical idx hn inv
    by_cases h : idx < cur.length
    · rw [repairFrom, dif_pos h, ← List.getD_eq_getElem cur default h]
      split
      · rename_i hsid
        exact ih cur canonical (idx + 1) (by omega) (inv.stepEmpty h hsid)
      · rename_i hsid
        split
        · rename_i hlook
          exact ih cur _ (idx + 1) (by omega) (inv.stepNew h hsid hlook)
        · rename_i prev hlook
          split
          · rename_i hgt
            refine ih _ _ (idx + 1) ?_ (inv.stepTake h hsid hlook hgt)
            rw [List.length_set]
            omega
          · rename_i hgt
            refine ih _ _ (idx + 1) ?_
              (inv.stepKeep h hsid hlook (Bool.eq_false_iff.mpr hgt))
            rw [List.length_set]
            omega
    · rw [repairFrom, dif_neg h]
      have hl := inv.len
      exact ⟨canonical, idx, by omega, inv⟩

/-- The repaired record list satisfies the final invariant. -/
theorem repair_session_collisions_inv (orig : List LocalThreadRecord) :
    ∃ canonical idx, orig.length ≤ idx ∧
      RepairInv orig (repair_session_collisions orig) canonical idx :=
  repairFrom_spec orig orig.length orig [] 0 (by omega) (repairInv_init orig)

/-- C1: after `repair_session_collisions`, each non-empty session id `sid` is
held by at most one record; every record is either untouched or only has its
session id cleared; a record that still holds `sid` is untouched (all other
fields unchanged) and no original record holding `sid` has a strictly greater
`(updated_at, message_index)` pair; and if some record held `sid` originally,
one still does. -/
theorem c1_repair_session_collisions (rs : List LocalThreadRecord) (sid : String)
    (hsid : sid ≠ "") :
    (∀ i1 i2, i1 < rs.length → i2 < rs.length →
      ((repair_session_collisions rs).getD i1 default).session_id = sid →
      ((repair_session_collisions rs).getD i2 default).session_id = sid → i1 = i2) ∧
    (∀ i, (repair_session_collisions rs).getD i default = rs.getD i default ∨
      (repair_session_collisions rs).getD i default = clearSession (rs.getD i default)) ∧
    (∀ i, ((repair_session_collisions rs).getD i default).session_id = sid →
      (repair_session_collisions rs).getD i default = rs.getD i default ∧
      ∀ j, (rs.getD j default).session_id = sid →
        pairGt (recPair (rs.getD j default))
          (recPair ((repair_session_collisions rs).getD i default)) = false) ∧
    ((∃ j, j < rs.length ∧ (rs.getD j default).session_id = sid) →
      ∃ i, i < rs.length ∧ ((repair_session_collisions rs).getD i default).session_id = sid) := by
  obtain ⟨canonical, idx, hlen, inv⟩ := repair_session_collisions_inv rs
  have hflen : (repair_session_collisions rs).length = rs.length := inv.len
  refine ⟨?_, inv.pointwise, ?_, ?_⟩
  · intro i1 i2 h1 h2 hs1 hs2
    have c1 := inv.canonComplete i1 (by omega) (by rw [hs1]; exact hsid)
    have c2 := inv.canonComplete i2 (by omega) (by rw [hs2]; exact hsid)
    rw [hs1] at c1
    rw [hs2] at c2
    rw [c1] at c2
    cases c2
    rfl
  · intro i hi
    have hibound : i < rs.length := by
      by_contra hge
      have hdef : (repair_session_collisions rs).getD i default = default :=
        List.getD_eq_default _ _ (by omega)
      rw [hdef, default_session_id] at hi
      exact hsid hi.symm
    have hcomp := inv.canonComplete i (by omega) (by rw [hi]; exact hsid)
    rw [hi] at hcomp
    have huntouched := inv.curEqOrig i (by rw [hi]; exact hsid)
    refine ⟨huntouched, ?_⟩
    intro j hj
    rcases Nat.lt_or_ge j idx with hjlt | hjge
    · have := inv.maximal sid i hcomp j hjlt hj
      rw [huntouched]
      exact this
    · have hdef : rs.getD j default = default := List.getD_eq_default _ _ (by omega)
      rw [hdef, default_session_id] at hj
      exact absurd hj.symm hsid
  · rintro ⟨j, hjlt, hjs⟩
    cases hcan : lookupIdx canonical sid with
    | none =>
      exact absurd hjs (inv.canonNone sid hsid hcan j (by omega))
    | some k =>
      obtain ⟨hklt, hksid, -⟩ := inv.canonSound sid k hcan
      have hkbound : k < rs.length := by
        by_contra hge
        have hdef : (repair_session_collisions rs).getD k default = default :=
          List.getD_eq_default _ _ (by omega)
        rw [hdef, default_session_id] at hksid
        exact hsid hksid.symm
      exact ⟨k, hkbound, hksid⟩

/-- A record colliding on session id "s" with a smaller pair. -/
def sampleCollA : LocalThreadRecord :=
  { thread_id := "ta", session_id := "s", title := "A", archived := false,
    updated_at := 5, message_index := 2 }

/-- A record colliding on session id "s" with the greatest pair. -/
def sampleCollB : LocalThreadRecord :=
  { thread_id := "tb", session_id := "s", title := "B", archived := false,
    updated_at := 7, message_index := 1 }

/-- Witness for C1: the repair theorem applied to a concrete colliding store. -/
theorem c1_repair_session_collisions_witness :
    (∀ i1 i2, i1 < ([sampleCollA, sampleCollB] : List LocalThreadRecord).length →
      i2 < ([sampleCollA, sampleCollB] : List LocalThreadRecord).length →
      ((repair_session_collisions [sampleCollA, sampleCollB]).getD i1 default).session_id = "s" →
      ((repair_session_collisions [sampleCollA, sampleCollB]).getD i2 default).session_id = "s" →
      i1 = i2) ∧
    (∀ i, (repair_session_collisions [sampleCollA, sampleCollB]).getD i default =
        ([sampleCollA, sampleCollB] : List LocalThreadRecord).getD i default ∨
      (repair_session_collisions [sampleCollA, sampleCollB]).getD i default =
        clearSession (([sampleCollA, sampleCollB] : List LocalThreadRecord).getD i default)) ∧
    (∀ i, ((repair_session_collisions [sampleCollA, sampleCollB]).getD i default).session_id = "s" →
      (repair_session_collisions [sampleCollA, sampleCollB]).getD i default =
        ([sampleCollA, sampleCollB] : List LocalThreadRecord).getD i default ∧
      ∀ j, (([sampleCollA, sampleCollB] : List LocalThreadRecord).getD j default).session_id = "s" →
        pairGt (recPair (([sampleCollA, sampleCollB] : List LocalThreadRecord).getD j default))
          (recPair ((repair_session_collisions [sampleCollA, sampleCollB]).getD i default)) =
          false) ∧
    ((∃ j, j < ([sampleCollA, sampleCollB] : List LocalThreadRecord).length ∧
        (([sampleCollA, sampleCollB] : List LocalThreadRecord).getD j default).session_id = "s") →
      ∃ i, i < ([sampleCollA, sampleCollB] : List LocalThreadRecord).length ∧
        ((repair_session_collisions [sampleCollA, sampleCollB]).getD i default).session_id = "s") :=
  c1_repair_session_collisions [sampleCollA, sampleCollB] "s" (by decide)

/-- First line of a prompt (`str::lines().next()`). -/
def firstLineChars : List Char → List Char
  | [] => []
  | c :: cs => if c = '\n' then [] else c :: firstLineChars cs

/-- Whitespace-separated words of a string (`str::split_whitespace`). -/
def wordsAux : List Char → List Char → List String
  | [], acc => if acc.isEmpty then [] else [String.mk acc.reverse]
  | c :: cs, acc =>
    if c.isWhitespace then
      if acc.isEmpty then wordsAux cs [] else String.mk acc.reverse :: wordsAux cs []
    else wordsAux cs (c :: acc)

/-- `str::split_whitespace` collected to a list. -/
def splitWhitespaceStr (s : String) : List String := wordsAux s.data []

/-- `derive_thread_title`: first line, whitespace-compacted, first 38 chars. -/
def derive_thread_title (prompt : String) : Option String :=
  let firstLine := strTrim (String.mk (firstLineChars prompt.data))
  if firstLine = "" then none
  else
    let compact := String.intercalate " " (splitWhitespaceStr firstLine)
    if compact = "" then none
    else some (String.mk (compact.data.take 38))

/-- `build_user_thread_item`. -/
def build_user_thread_item (threadId turnId text : String) : Json :=
  Json.obj [("id", Json.str ("user-" ++ threadId ++ "-" ++ turnId)),
    ("type", Json.str "userMessage"),
    ("content", Json.arr [Json.obj [("type", Json.str "text"), ("text", Json.str text)]])]

/-- `build_agent_thread_item`. -/
def build_agent_thread_item (threadId turnId text : String) : Json :=
  Json.obj [("id", Json.str ("agent-" ++ threadId ++ "-" ++ turnId)),
    ("type", Json.str "agentMessage"), ("text", Json.str text)]

/-- `WorkspaceSession::parse_prompt_from_turn_start`: join the text input
items, else fall back to the trimmed "text" field. -/
def parse_prompt_from_turn_start (params : Json) : String :=
  let fromInput := strTrim (String.intercalate "\n"
    ((((params.get "input").bind Json.asArr).getD []).filterMap (fun item =>
      if (item.get "type").bind Json.asStr = some "text" then
        (item.get "text").bind Json.asStr
      else none)))
  if fromInput ≠ "" then fromInput
  else
    match (params.get "text").bind Json.asStr with
    | some t => if strTrim t = "" then "" else strTrim t
    | none => ""

/-- `LocalThreadStore::by_thread_id`. -/
def by_thread_id (records : List LocalThreadRecord) (threadId : String) :
    Option LocalThreadRecord :=
  records.find? (fun entry => entry.thread_id == threadId)

/-- Externally visible effects of the `turn/start` handler, in program order:
session creations (`session/new`), session binding (store `set_session_id` or
background-map insert), title updates, persisted thread items, message-counter
bumps, emitted events, and `session/prompt` dispatches with their bounded wait
in seconds. -/
inductive Effect where
  | sessionCreated (sessionId : String)
  | sessionBound (background : Bool) (threadId sessionId : String)
  | titleSet (threadId title : String)
  | itemPersisted (threadId : String) (item : Json)
  | messageTouched (threadId : String)
  | eventEmitted (method : String) (params : Json)
  | promptDispatched (waitSeconds : Nat) (sessionId text : String)

/-- Whether an effect is a session creation. -/
def Effect.isSessionCreated : Effect → Bool
  | Effect.sessionCreated _ => true
  | _ => false

/-- Whether an effect is a prompt dispatch. -/
def Effect.isPromptDispatched : Effect → Bool
  | Effect.promptDispatched _ _ _ => true
  | _ => false

/-- Whether an effect persists any thread item. -/
def Effect.isItemPersisted : Effect → Bool
  | Effect.itemPersisted _ _ => true
  | _ => false

/-- Whether an effect persists an agent-message thread item. -/
def Effect.isAgentItemPersisted : Effect → Bool
  | Effect.itemPersisted _ item => (item.get "type").bind Json.asStr == some "agentMessage"
  | _ => false

/-- Outcome of one bounded wait on a `session/prompt` dispatch: the wait
expired, the pending-request channel failed (`request canceled` or a write
error), or a response value arrived. -/
inductive PromptOutcome where
  | timeout
  | canceled (msg : String)
  | response (v : Json)

/-- One dispatch attempt as the concurrent reader left it: the wait outcome,
whether any streaming notification was observed for the tracked session
(`finish_prompt_tracking`), and the accumulated assistant text
(`take_prompt_agent_message`). -/
structure DispatchStep where
  outcome : PromptOutcome
  hadStreaming : Bool
  accumulated : Option String

/-- Environment of one `turn/start` call: results of successive
`create_session_for_cwd` calls, successive prompt dispatch attempts, the
result of `set_preferred_model` when a model is requested, and the token
usage found on disk by `emit_latest_thread_token_usage` (none when absent). -/
structure TurnEnv where
  sessions : Nat → Except String String
  dispatch : Nat → DispatchStep
  setModelChanged : Except String Bool
  tokenUsage : Option Json

/-- Input of one `turn/start` call: the request params, the workspace path,
the thread store records, the background-thread session map and callback keys,
and the freshly generated turn id. -/
structure TurnInput where
  params : Json
  entryPath : String
  records : List LocalThreadRecord
  backgroundSessions : List (String × String)
  backgroundCallbacks : List String
  turnId : String

/-- The caller-visible turn object `{id, threadId}`. -/
def normalizedTurn (turnId threadId : String) : Json :=
  Json.obj [("id", Json.str turnId), ("threadId", Json.str threadId)]

/-- Title-derivation effects of `turn/start`: only for non-background threads
whose stored title is (case-insensitively) "new thread". -/
def titleEffectsFor (isBackground : Bool) (thread : Option LocalThreadRecord)
    (threadId promptText : String) : List Effect :=
  if isBackground then []
  else
    match thread with
    | some t =>
      if eqIgnoreAsciiCase (strTrim t.title) "new thread" then
        match derive_thread_title promptText with
        | some title =>
          [Effect.titleSet threadId title,
           Effect.eventEmitted "thread/name/updated"
             (Json.obj [("threadId", Json.str threadId), ("threadName", Json.str title)])]
        | none => []
      else []
    | none => []

/-- `persist_prompt_agent_item` as effects: persists the accumulated agent
message unless it is absent or trims to empty. -/
def persistAgentEffects (threadId turnId : String) (accumulated : Option String) :
    List Effect :=
  match accumulated with
  | none => []
  | some text =>
    if strTrim text = "" then []
    else [Effect.itemPersisted threadId (build_agent_thread_item threadId turnId text)]

/-- `emit_latest_thread_token_usage` as effects: emits the usage event when the
session id is non-blank and usage was found on disk. -/
def tokenUsageEffects (threadId sessionId : String) (usage : Option Json) : List Effect :=
  if strTrim sessionId = "" then []
  else
    match usage with
    | some u =>
      [Effect.eventEmitted "thread/tokenUsage/updated"
        (Json.obj [("threadId", Json.str threadId), ("tokenUsage", u)])]
    | none => []

/-- The `turn/completed` event. -/
def turnCompletedEvent (threadId turnId : String) : Effect :=
  Effect.eventEmitted "turn/completed"
    (Json.obj [("threadId", Json.str threadId), ("turn", normalizedTurn turnId threadId)])

/-- The completion block shared by the success, timeout-with-streaming and
aborted paths: persist the accumulated agent item, bump the message counter,
emit token usage, then emit `turn/completed` - all skipped for background
threads. -/
def completionEffects (isBackground : Bool) (threadId turnId sessionId : String)
    (accumulated : Option String) (usage : Option Json) : List Effect :=
  (if isBackground then []
   else persistAgentEffects threadId turnId accumulated ++ [Effect.messageTouched threadId] ++
     tokenUsageEffects threadId sessionId usage) ++
  (if isBackground then [] else [turnCompletedEvent threadId turnId])

/-- The `{"result": {"stopReason": "end_turn", "turn": ...}}` success value. -/
def endTurnResult (turnId threadId : String) : Json :=
  Json.obj [("result", Json.obj [("stopReason", Json.str "end_turn"),
    ("turn", normalizedTurn turnId threadId)])]

/-- The `{"result": {"stopReason": "cancelled", "turn": ...}}` success value. -/
def cancelledResult (turnId threadId : String) : Json :=
  Json.obj [("result", Json.obj [("stopReason", Json.str "cancelled"),
    ("turn", normalizedTurn turnId threadId)])]

/-- Replace the value of an existing key of an object. -/
def objSetField (v : Json) (key : String) (newVal : Json) : Json :=
  match v with
  | Json.obj fields => Json.obj (fields.map (fun p => if p.1 == key then (p.1, newVal) else p))
  | other => other

/-- `serde_json::Map::entry(key).or_insert(v)`: add the key at the end when
absent. -/
def objInsertIfAbsent (fields : List (String × Json)) (key : String) (v : Json) :
    List (String × Json) :=
  if fields.any (fun p => p.1 == key) then fields else fields ++ [(key, v)]

/-- Normalisation of a successful `session/prompt` response: graft the turn
object into `result` when `result` is an object, else replace the response by
`{"result": {"turn": ...}}`. -/
def normalizeTurnResponse (response : Json) (turn : Json) : Json :=
  match response.get "result" with
  | some (Json.obj fields) =>
    objSetField response "result" (Json.obj (objInsertIfAbsent fields "turn" turn))
  | _ => Json.obj [("result", Json.obj [("turn", turn)])]

/-- Handling of an expired bounded wait: success with stop reason "end_turn"
and the completion block when streaming was observed, else the timeout error
with no further effects. -/
def timeoutOutcomePair (isBackground : Bool) (threadId turnId tracked : String)
    (step : DispatchStep) (usage : Option Json) (timeoutMsg : String) :
    Except String Json × List Effect :=
  if step.hadStreaming then
    (Except.ok (endTurnResult turnId threadId),
     completionEffects isBackground threadId turnId tracked step.accumulated usage)
  else (Except.error timeoutMsg, [])

/-- Handling of an arrived (non-session-not-found) response: aborted errors
become a "cancelled" success with the completion block, other errors are
surfaced, and error-free responses are normalised and completed. -/
def responseOutcomePair (isBackground : Bool) (threadId turnId tracked : String)
    (accumulated : Option String) (usage : Option Json) (response : Json) :
    Except String Json × List Effect :=
  match acp_error_message response with
  | some err =>
    if is_request_aborted_message err then
      (Except.ok (cancelledResult turnId threadId),
       completionEffects isBackground threadId turnId tracked accumulated usage)
    else (Except.error ("turn/start failed: " ++ err), [])
  | none =>
    (Except.ok (normalizeTurnResponse response (normalizedTurn turnId threadId)),
     completionEffects isBackground threadId turnId tracked accumulated usage)

/-- The `turn/start` branch of `WorkspaceSession::send_request`, embedded as a
pure function over the call input and an environment fixing the outcome of
each protocol interaction; paired with the list of externally visible effects
in program order. -/
def turn_start (inp : TurnInput) (env : TurnEnv) : Except String Json × List Effect :=
  match (inp.params.get "threadId").bind Json.asStr with
  | none => (Except.error "missing threadId", [])
  | some threadId =>
    let backgroundSession := lookupAssoc inp.backgroundSessions threadId
    let isBackground := inp.backgroundCallbacks.contains threadId || backgroundSession.isSome
    match (match backgroundSession with
           | some _ => Except.ok (none : Option LocalThreadRecord)
           | none =>
             match by_thread_id inp.records threadId with
             | some r => Except.ok (some r)
             | none => Except.error ("thread not found: " ++ threadId)) with
    | Except.error e => (Except.error e, [])
    | Except.ok thread =>
      let promptText := parse_prompt_from_turn_start inp.params
      if promptText = "" then (Except.error "empty user message", [])
      else
        let titleEffects := titleEffectsFor isBackground thread threadId promptText
        let sessionId0 :=
          (match backgroundSession with
           | some s => some s
           | none => thread.map (fun t => t.session_id) : Option String).getD ""
        let requestedModel :=
          match (inp.params.get "model").bind Json.asStr with
          | some m => if strTrim m = "" then none else some (strTrim m)
          | none => none
        let modelOutcome : Except String (String × Nat × List Effect) :=
          match requestedModel with
          | none => Except.ok (sessionId0, 0, [])
          | some _ =>
            match env.setModelChanged with
            | Except.ok true =>
              match env.sessions 0 with
              | Except.error e => Except.error e
              | Except.ok fresh =>
                Except.ok (fresh, 1,
                  [Effect.sessionCreated fresh, Effect.sessionBound isBackground threadId fresh])
            | _ => Except.ok (sessionId0, 0, [])
        match modelOutcome with
        | Except.error e => (Except.error e, titleEffects)
        | Except.ok (sessionId1, nSess1, modelEffects) =>
          let emptyOutcome : Except String (String × Nat × List Effect) :=
            if strTrim sessionId1 = "" then
              match env.sessions nSess1 with
              | Except.error e => Except.error e
              | Except.ok fresh =>
                Except.ok (fresh, nSess1 + 1,
                  [Effect.sessionCreated fresh, Effect.sessionBound isBackground threadId fresh])
            else Except.ok (sessionId1, nSess1, [])
          match emptyOutcome with
          | Except.error e => (Except.error e, titleEffects ++ modelEffects)
          | Except.ok (sessionId, nSess, emptyEffects) =>
            let startEffects :=
              if isBackground then []
              else
                [Effect.itemPersisted threadId
                   (build_user_thread_item threadId inp.turnId promptText),
                 Effect.eventEmitted "turn/started"
                   (Json.obj [("threadId", Json.str threadId),
                     ("turn", normalizedTurn inp.turnId threadId)])]
            let base := titleEffects ++ modelEffects ++ emptyEffects ++ startEffects ++
              [Effect.promptDispatched 90 sessionId promptText]
            let step1 := env.dispatch 0
            match step1.outcome with
            | PromptOutcome.timeout =>
              let pair := timeoutOutcomePair isBackground threadId inp.turnId sessionId step1
                env.tokenUsage "turn/start timed out waiting for MiCode response"
              (pair.1, base ++ pair.2)
            | PromptOutcome.canceled msg => (Except.error msg, base)
            | PromptOutcome.response v =>
              if is_session_not_found_error v then
                match env.sessions nSess with
                | Except.error e => (Except.error e, base)
                | Except.ok newSession =>
                  let retryBase := base ++
                    [Effect.sessionCreated newSession,
                     Effect.sessionBound isBackground threadId newSession,
                     Effect.promptDispatched 90 newSession promptText]
                  let step2 := env.dispatch 1
                  match step2.outcome with
                  | PromptOutcome.timeout =>
                    let pair := timeoutOutcomePair isBackground threadId inp.turnId newSession
                      step2 env.tokenUsage
                      "turn/start timed out waiting for MiCode response after session recovery"
                    (pair.1, retryBase ++ pair.2)
                  | PromptOutcome.canceled msg => (Except.error msg, retryBase)
                  | PromptOutcome.response v2 =>
                    let pair := responseOutcomePair isBackground threadId inp.turnId newSession
                      step2.accumulated env.tokenUsage v2
                    (pair.1, retryBase ++ pair.2)
              else
                let pair := responseOutcomePair isBackground threadId inp.turnId sessionId
                  step1.accumulated env.tokenUsage v
                (pair.1, base ++ pair.2)

/-- Effects of a normal-scenario `turn/start` up to and including the first
prompt dispatch: possible title derivation, the persisted user item, the
`turn/started` event, and the dispatch on the thread's stored session. -/
def normalBase (inp : TurnInput) (tid : String) (rec : LocalThreadRecord) : List Effect :=
  titleEffectsFor false (some rec) tid (parse_prompt_from_turn_start inp.params) ++
  [Effect.itemPersisted tid
     (build_user_thread_item tid inp.turnId (parse_prompt_from_turn_start inp.params)),
   Effect.eventEmitted "turn/started"
     (Json.obj [("threadId", Json.str tid), ("turn", normalizedTurn inp.turnId tid)]),
   Effect.promptDispatched 90 rec.session_id (parse_prompt_from_turn_start inp.params)]

/-- Evaluation of `turn_start` in the normal scenario (existing non-background
thread, non-empty prompt, no model switch, non-blank stored session) when the
first dispatch times out. -/
theorem turn_start_normal_timeout (inp : TurnInput) (env : TurnEnv) (tid : String)
    (rec : LocalThreadRecord)
    (h1 : (inp.params.get "threadId").bind Json.asStr = some tid)
    (h2 : lookupAssoc inp.backgroundSessions tid = none)
    (h3 : inp.backgroundCallbacks.contains tid = false)
    (h4 : by_thread_id inp.records tid = some rec)
    (h5 : parse_prompt_from_turn_start inp.params ≠ "")
    (h6 : (inp.params.get "model").bind Json.asStr = none)
    (h7 : strTrim rec.session_id ≠ "")
    (h8 : (env.dispatch 0).outcome = PromptOutcome.timeout) :
    turn_start inp env =
      ((timeoutOutcomePair false tid inp.turnId rec.session_id (env.dispatch 0) env.tokenUsage
          "turn/start timed out waiting for MiCode response").1,
        normalBase inp tid rec ++
          (timeoutOutcomePair false tid inp.turnId rec.session_id (env.dispatch 0) env.tokenUsage
            "turn/start timed out waiting for MiCode response").2) := by
  simp only [turn_start, h1, h2, h3, h4, h6, h8, Option.isSome_none, Bool.or_false,
    Option.map_some', Option.getD_some]
  rw [if_neg h5, if_neg h7]
  simp [normalBase, List.append_assoc]

/-- Evaluation of `turn_start` in the normal scenario when the pending-request
channel fails: the error is propagated. -/
theorem turn_start_normal_canceled (inp : TurnInput) (env : TurnEnv) (tid : String)
    (rec : LocalThreadRecord) (msg : String)
    (h1 : (inp.params.get "threadId").bind Json.asStr = some tid)
    (h2 : lookupAssoc inp.backgroundSessions tid = none)
    (h3 : inp.backgroundCallbacks.contains tid = false)
    (h4 : by_thread_id inp.records tid = some rec)
    (h5 : parse_prompt_from_turn_start inp.params ≠ "")
    (h6 : (inp.params.get "model").bind Json.asStr = none)
    (h7 : strTrim rec.session_id ≠ "")
    (h8 : (env.dispatch 0).outcome = PromptOutcome.canceled msg) :
    turn_start inp env = (Except.error msg, normalBase inp tid rec) := by
  simp only [turn_start, h1, h2, h3, h4, h6, h8, Option.isSome_none, Bool.or_false,
    Option.map_some', Option.getD_some]
  rw [if_neg h5, if_neg h7]
  simp [normalBase, List.append_assoc]

/-- Evaluation of `turn_start` in the normal scenario when the first dispatch
returns a response that is not a session-not-found error. -/
theorem turn_start_normal_response (inp : TurnInput) (env : TurnEnv) (tid : String)
    (rec : LocalThreadRecord) (v : Json)
    (h1 : (inp.params.get "threadId").bind Json.asStr = some tid)
    (h2 : lookupAssoc inp.backgroundSessions tid = none)
    (h3 : inp.backgroundCallbacks.contains tid = false)
    (h4 : by_thread_id inp.records tid = some rec)
    (h5 : parse_prompt_from_turn_start inp.params ≠ "")
    (h6 : (inp.params.get "model").bind Json.asStr = none)
    (h7 : strTrim rec.session_id ≠ "")
    (h8 : (env.dispatch 0).outcome = PromptOutcome.response v)
    (h9 : is_session_not_found_error v = false) :
    turn_start inp env =
      ((responseOutcomePair false tid inp.turnId rec.session_id (env.dispatch 0).accumulated
          env.tokenUsage v).1,
        normalBase inp tid rec ++
          (responseOutcomePair false tid inp.turnId rec.session_id (env.dispatch 0).accumulated
            env.tokenUsage v).2) := by
  simp only [turn_start, h1, h2, h3, h4, h6, h8, h9, Option.isSome_none, Bool.or_false,
    Option.map_some', Option.getD_some, Bool.false_eq_true, if_false]
  rw [if_neg h5, if_neg h7]
  simp [normalBase, List.append_assoc]

/-- Evaluation of `turn_start` in the normal scenario when the first dispatch
returns a session-not-found error and a replacement session is created: one
creation, one rebind, one retried dispatch, and the retry's outcome decides
the result. -/
theorem turn_start_normal_snf (inp : TurnInput) (env : TurnEnv) (tid : String)
    (rec : LocalThreadRecord) (v : Json) (s2 : String)
    (h1 : (inp.params.get "threadId").bind Json.asStr = some tid)
    (h2 : lookupAssoc inp.backgroundSessions tid = none)
    (h3 : inp.backgroundCallbacks.contains tid = false)
    (h4 : by_thread_id inp.records tid = some rec)
    (h5 : parse_prompt_from_turn_start inp.params ≠ "")
    (h6 : (inp.params.get "model").bind Json.asStr = none)
    (h7 : strTrim rec.session_id ≠ "")
    (h8 : (env.dispatch 0).outcome = PromptOutcome.response v)
    (h9 : is_session_not_found_error v = true)
    (h10 : env.sessions 0 = Except.ok s2) :
    turn_start inp env =
      (match (env.dispatch 1).outcome with
       | PromptOutcome.timeout =>
         ((timeoutOutcomePair false tid inp.turnId s2 (env.dispatch 1) env.tokenUsage
             "turn/start timed out waiting for MiCode response after session recovery").1,
           (normalBase inp tid rec ++
             [Effect.sessionCreated s2, Effect.sessionBound false tid s2,
              Effect.promptDispatched 90 s2 (parse_prompt_from_turn_start inp.params)]) ++
             (timeoutOutcomePair false tid inp.turnId s2 (env.dispatch 1) env.tokenUsage
               "turn/start timed out waiting for MiCode response after session recovery").2)
       | PromptOutcome.canceled msg =>
         (Except.error msg,
           normalBase inp tid rec ++
             [Effect.sessionCreated s2, Effect.sessionBound false tid s2,
              Effect.promptDispatched 90 s2 (parse_prompt_from_turn_start inp.params)])
       | PromptOutcome.response v2 =>
         ((responseOutcomePair false tid inp.turnId s2 (env.dispatch 1).accumulated
             env.tokenUsage v2).1,
           (normalBase inp tid rec ++
             [Effect.sessionCreated s2, Effect.sessionBound false tid s2,
              Effect.promptDispatched 90 s2 (parse_prompt_from_turn_start inp.params)]) ++
             (responseOutcomePair false tid inp.turnId s2 (env.dispatch 1).accumulated
               env.tokenUsage v2).2)) := by
  simp only [turn_start, h1, h2, h3, h4, h6, h8, h9, h10, Option.isSome_none, Bool.or_false,
    Option.map_some', Option.getD_some, if_true]
  rw [if_neg h5, if_neg h7]
  cases hd : (env.dispatch 1).outcome with
  | timeout => simp [hd, h10, normalBase, List.append_assoc]
  | canceled msg => simp [hd, h10, normalBase, List.append_assoc]
  | response v2 => simp [hd, h10, normalBase, List.append_assoc]

/-- Every title effect is a title set or a rename event. -/
theorem titleEffectsFor_mem {isBg : Bool} {thread : Option LocalThreadRecord}
    {tid p : String} {e : Effect} (he : e ∈ titleEffectsFor isBg thread tid p) :
    (∃ title, e = Effect.titleSet tid title) ∨
    (∃ pl, e = Effect.eventEmitted "thread/name/updated" pl) := by
  unfold titleEffectsFor at he
  split at he
  · cases he
  · split at he
    · split at he
      · split at he
        · rcases List.mem_cons.mp he with rfl | he
          · exact Or.inl ⟨_, rfl⟩
          · rcases List.mem_cons.mp he with rfl | he
            · exact Or.inr ⟨_, rfl⟩
            · cases he
        · cases he
      · cases he
    · cases he

/-- Every completion effect is an agent item, a counter bump, a token-usage
event or the `turn/completed` event. -/
theorem completionEffects_mem {isBg : Bool} {tid turnId sid : String}
    {acc : Option String} {usage : Option Json} {e : Effect}
    (he : e ∈ completionEffects isBg tid turnId sid acc usage) :
    (∃ text, e = Effect.itemPersisted tid (build_agent_thread_item tid turnId text)) ∨
    e = Effect.messageTouched tid ∨
    (∃ pl, e = Effect.eventEmitted "thread/tokenUsage/updated" pl) ∨
    e = turnCompletedEvent tid turnId := by
  unfold completionEffects at he
  rcases List.mem_append.mp he with h | h
  · split at h
    · cases h
    · rcases List.mem_append.mp h with h2 | h2
      · rcases List.mem_append.mp h2 with h3 | h3
        · unfold persistAgentEffects at h3
          split at h3
          · cases h3
          · split at h3
            · cases h3
            · rcases List.mem_cons.mp h3 with rfl | h3
              · exact Or.inl ⟨_, rfl⟩
              · cases h3
        · rcases List.mem_cons.mp h3 with rfl | h3
          · exact Or.inr (Or.inl rfl)
          · cases h3
      · unfold tokenUsageEffects at h2
        split at h2
        · cases h2
        · split at h2
          · rcases List.mem_cons.mp h2 with rfl | h2
            · exact Or.inr (Or.inr (Or.inl ⟨_, rfl⟩))
            · cases h2
          · cases h2
  · split at h
    · cases h
    · rcases List.mem_cons.mp h with rfl | h
      · exact Or.inr (Or.inr (Or.inr rfl))
      · cases h

/-- The effect list of a timeout outcome is empty or a completion block. -/
theorem timeoutOutcomePair_snd (isBg : Bool) (tid turnId sid : String)
    (step : DispatchStep) (usage : Option Json) (msg : String) :
    (timeoutOutcomePair isBg tid turnId sid step usage msg).2 = [] ∨
    (timeoutOutcomePair isBg tid turnId sid step usage msg).2 =
      completionEffects isBg tid turnId sid step.accumulated usage := by
  unfold timeoutOutcomePair
  split
  · exact Or.inr rfl
  · exact Or.inl rfl

/-- The effect list of a response outcome is empty or a completion block. -/
theorem responseOutcomePair_snd (isBg : Bool) (tid turnId sid : String)
    (acc : Option String) (usage : Option Json) (v : Json) :
    (responseOutcomePair isBg tid turnId sid acc usage v).2 = [] ∨
    (responseOutcomePair isBg tid turnId sid acc usage v).2 =
      completionEffects isBg tid turnId sid acc usage := by
  unfold responseOutcomePair
  split
  · split
    · exact Or.inr rfl
    · exact Or.inl rfl
  · exact Or.inr rfl

/-- Title effects count no session creation, dispatch, or persisted item. -/
theorem titleEffectsFor_countP_zero (isBg : Bool) (thread : Option LocalThreadRecord)
    (tid p : String) (q : Effect → Bool)
    (hq1 : ∀ title, q (Effect.titleSet tid title) = false)
    (hq2 : ∀ pl, q (Effect.eventEmitted "thread/name/updated" pl) = false) :
    (titleEffectsFor isBg thread tid p).countP q = 0 := by
  rw [List.countP_eq_zero]
  intro e he
  rcases titleEffectsFor_mem he with ⟨title, rfl⟩ | ⟨pl, rfl⟩
  · simp [hq1]
  · simp [hq2]

/-- Completion blocks count no session creation or prompt dispatch. -/
theorem completionEffects_countP_zero (isBg : Bool) (tid turnId sid : String)
    (acc : Option String) (usage : Option Json) (q : Effect → Bool)
    (hq1 : ∀ t, q (Effect.itemPersisted tid (build_agent_thread_item tid turnId t)) = false)
    (hq2 : q (Effect.messageTouched tid) = false)
    (hq3 : ∀ pl, q (Effect.eventEmitted "thread/tokenUsage/updated" pl) = false)
    (hq4 : q (turnCompletedEvent tid turnId) = false) :
    (completionEffects isBg tid turnId sid acc usage).countP q = 0 := by
  rw [List.countP_eq_zero]
  intro e he
  rcases completionEffects_mem he with ⟨t, rfl⟩ | rfl | ⟨pl, rfl⟩ | rfl
  · simp [hq1]
  · simp [hq2]
  · simp [hq3]
  · simp [hq4]

/-- The base effects contain no session creation. -/
theorem normalBase_countP_sessionCreated (inp : TurnInput) (tid : String)
    (rec : LocalThreadRecord) :
    (normalBase inp tid rec).countP Effect.isSessionCreated = 0 := by
  unfold normalBase
  rw [List.countP_append,
    titleEffectsFor_countP_zero false (some rec) tid _ _ (fun _ => rfl) (fun _ => rfl)]
  rfl

/-- The base effects contain exactly one prompt dispatch. -/
theorem normalBase_countP_promptDispatched (inp : TurnInput) (tid : String)
    (rec : LocalThreadRecord) :
    (normalBase inp tid rec).countP Effect.isPromptDispatched = 1 := by
  unfold normalBase
  rw [List.countP_append,
    titleEffectsFor_countP_zero false (some rec) tid _ _ (fun _ => rfl) (fun _ => rfl)]
  rfl

/-- The base effects persist no agent-message item (only the user item). -/
theorem normalBase_countP_agentItem (inp : TurnInput) (tid : String)
    (rec : LocalThreadRecord) :
    (normalBase inp tid rec).countP Effect.isAgentItemPersisted = 0 := by
  unfold normalBase
  rw [List.countP_append,
    titleEffectsFor_countP_zero false (some rec) tid _ _ (fun _ => rfl) (fun _ => rfl)]
  rfl

/-- C10: a `turn/start` on an existing, non-background thread whose parsed
prompt is empty fails with "empty user message" and produces no effect at all:
no session creation, no dispatch, no persisted item, no store mutation, no
event. -/
theorem c10_empty_prompt (inp : TurnInput) (env : TurnEnv) (tid : String)
    (rec : LocalThreadRecord)
    (h1 : (inp.params.get "threadId").bind Json.asStr = some tid)
    (h2 : lookupAssoc inp.backgroundSessions tid = none)
    (h4 : by_thread_id inp.records tid = some rec)
    (h5 : parse_prompt_from_turn_start inp.params = "") :
    turn_start inp env = (Except.error "empty user message", []) := by
  simp only [turn_start, h1, h2, h4]
  rw [if_pos h5]

/-- Parameters of a turn/start request with an empty input list. -/
def emptyPromptParams : Json :=
  Json.obj [("threadId", Json.str "t1"), ("input", Json.arr [])]

/-- Parameters of a turn/start request with prompt text "hello". -/
def helloPromptParams : Json :=
  Json.obj [("threadId", Json.str "t1"),
    ("input", Json.arr [Json.obj [("type", Json.str "text"), ("text", Json.str "hello")]])]

/-- A turn input over the single-record store for the given params. -/
def turnInputFor (params : Json) : TurnInput :=
  { params := params, entryPath := "/w", records := [sampleRecordT1],
    backgroundSessions := [], backgroundCallbacks := [], turnId := "turn1" }

/-- An environment whose first dispatch times out with no streaming. -/
def timeoutQuietEnv : TurnEnv :=
  { sessions := fun _ => Except.ok "snew",
    dispatch := fun _ => ⟨PromptOutcome.timeout, false, none⟩,
    setModelChanged := Except.ok false, tokenUsage := none }

/-- An environment whose first dispatch times out after streaming "Hi there". -/
def timeoutStreamingEnv : TurnEnv :=
  { sessions := fun _ => Except.ok "snew",
    dispatch := fun _ => ⟨PromptOutcome.timeout, true, some "Hi there"⟩,
    setModelChanged := Except.ok false, tokenUsage := none }

/-- Witness for C10: the empty-prompt rejection at a concrete input. -/
theorem c10_empty_prompt_witness :
    turn_start (turnInputFor emptyPromptParams) timeoutQuietEnv =
      (Except.error "empty user message", []) :=
  c10_empty_prompt (turnInputFor emptyPromptParams) timeoutQuietEnv "t1" sampleRecordT1
    rfl rfl rfl rfl

/-- C3: in the normal scenario, a first dispatch that times out after at least
one streaming notification, with non-blank accumulated text `t`, yields the
"end_turn" success result and persists `t` as the agent thread item. -/
theorem c3_timeout_with_streaming (inp : TurnInput) (env : TurnEnv) (tid : String)
    (rec : LocalThreadRecord) (t : String)
    (h1 : (inp.params.get "threadId").bind Json.asStr = some tid)
    (h2 : lookupAssoc inp.backgroundSessions tid = none)
    (h3 : inp.backgroundCallbacks.contains tid = false)
    (h4 : by_thread_id inp.records tid = some rec)
    (h5 : parse_prompt_from_turn_start inp.params ≠ "")
    (h6 : (inp.params.get "model").bind Json.asStr = none)
    (h7 : strTrim rec.session_id ≠ "")
    (h8 : (env.dispatch 0).outcome = PromptOutcome.timeout)
    (h9 : (env.dispatch 0).hadStreaming = true)
    (h10 : (env.dispatch 0).accumulated = some t)
    (h11 : strTrim t ≠ "") :
    (turn_start inp env).1 = Except.ok (endTurnResult inp.turnId tid) ∧
    Effect.itemPersisted tid (build_agent_thread_item tid inp.turnId t) ∈
      (turn_start inp env).2 := by
  rw [turn_start_normal_timeout inp env tid rec h1 h2 h3 h4 h5 h6 h7 h8]
  constructor
  · simp [timeoutOutcomePair, h9]
  · simp only [timeoutOutcomePair, h9, if_true]
    apply List.mem_append_right
    simp [completionEffects, persistAgentEffects, h10, h11]

/-- Witness for C3 at a concrete store, prompt "hello" and streamed text
"Hi there". -/
theorem c3_timeout_with_streaming_witness :
    (turn_start (turnInputFor helloPromptParams) timeoutStreamingEnv).1 =
      Except.ok (endTurnResult "turn1" "t1") ∧
    Effect.itemPersisted "t1" (build_agent_thread_item "t1" "turn1" "Hi there") ∈
      (turn_start (turnInputFor helloPromptParams) timeoutStreamingEnv).2 :=
  c3_timeout_with_streaming (turnInputFor helloPromptParams) timeoutStreamingEnv "t1"
    sampleRecordT1 "Hi there" rfl rfl rfl rfl (by decide) rfl (by decide) rfl rfl rfl (by decide)

/-- C4 (amended): in the normal scenario, a first dispatch that times out with
no streaming observed yields the timeout error, and no agent-message item is
persisted; the user message item persisted before the dispatch is the only
persistence of the operation. -/
theorem c4_timeout_without_streaming (inp : TurnInput) (env : TurnEnv) (tid : String)
    (rec : LocalThreadRecord)
    (h1 : (inp.params.get "threadId").bind Json.asStr = some tid)
    (h2 : lookupAssoc inp.backgroundSessions tid = none)
    (h3 : inp.backgroundCallbacks.contains tid = false)
    (h4 : by_thread_id inp.records tid = some rec)
    (h5 : parse_prompt_from_turn_start inp.params ≠ "")
    (h6 : (inp.params.get "model").bind Json.asStr = none)
    (h7 : strTrim rec.session_id ≠ "")
    (h8 : (env.dispatch 0).outcome = PromptOutcome.timeout)
    (h9 : (env.dispatch 0).hadStreaming = false) :
    (turn_start inp env).1 = Except.error "turn/start timed out waiting for MiCode response" ∧
    (turn_start inp env).2.countP Effect.isAgentItemPersisted = 0 := by
  rw [turn_start_normal_timeout inp env tid rec h1 h2 h3 h4 h5 h6 h7 h8]
  constructor
  · simp [timeoutOutcomePair, h9]
  · simp only [timeoutOutcomePair, h9, Bool.false_eq_true, if_false, List.append_nil]
    exact normalBase_countP_agentItem inp tid rec

/-- Witness for C4's amended theorem at a concrete input. -/
theorem c4_timeout_without_streaming_witness :
    (turn_start (turnInputFor helloPromptParams) timeoutQuietEnv).1 =
      Except.error "turn/start timed out waiting for MiCode response" ∧
    (turn_start (turnInputFor helloPromptParams) timeoutQuietEnv).2.countP
      Effect.isAgentItemPersisted = 0 :=
  c4_timeout_without_streaming (turnInputFor helloPromptParams) timeoutQuietEnv "t1"
    sampleRecordT1 rfl rfl rfl rfl (by decide) rfl (by decide) rfl rfl

/-- Counterexample for C4 as stated: at a concrete quiet timeout, the result is
the timeout error, but a thread item (the user message, persisted before the
dispatch) was persisted during the operation, so "no new thread item is
persisted" fails. -/
theorem c4_counterexample :
    (turn_start (turnInputFor helloPromptParams) timeoutQuietEnv).1 =
      Except.error "turn/start timed out waiting for MiCode response" ∧
    ¬ ((turn_start (turnInputFor helloPromptParams) timeoutQuietEnv).2.countP
        Effect.isItemPersisted = 0) := by
  constructor
  · rfl
  · intro hcontra
    have hone : (turn_start (turnInputFor helloPromptParams) timeoutQuietEnv).2.countP
        Effect.isItemPersisted = 1 := by rfl
    omega

/-- C7: in the normal scenario, a (first) response whose error message
indicates the request was aborted is handled as a successful cancellation:
the accumulated text is persisted, the message counter advanced, and turn
completion emitted, exactly as in the timeout-with-streaming path, with stop
reason "cancelled" instead of "end_turn". -/
theorem c7_aborted_cancelled (inp : TurnInput) (env : TurnEnv) (tid : String)
    (rec : LocalThreadRecord) (v : Json) (m t : String)
    (h1 : (inp.params.get "threadId").bind Json.asStr = some tid)
    (h2 : lookupAssoc inp.backgroundSessions tid = none)
    (h3 : inp.backgroundCallbacks.contains tid = false)
    (h4 : by_thread_id inp.records tid = some rec)
    (h5 : parse_prompt_from_turn_start inp.params ≠ "")
    (h6 : (inp.params.get "model").bind Json.asStr = none)
    (h7 : strTrim rec.session_id ≠ "")
    (h8 : (env.dispatch 0).outcome = PromptOutcome.response v)
    (h9 : is_session_not_found_error v = false)
    (h10 : acp_error_message v = some m)
    (h11 : is_request_aborted_message m = true)
    (h12 : (env.dispatch 0).accumulated = some t)
    (h13 : strTrim t ≠ "") :
    (turn_start inp env).1 = Except.ok (cancelledResult inp.turnId tid) ∧
    Effect.itemPersisted tid (build_agent_thread_item tid inp.turnId t) ∈
      (turn_start inp env).2 ∧
    Effect.messageTouched tid ∈ (turn_start inp env).2 ∧
    turnCompletedEvent tid inp.turnId ∈ (turn_start inp env).2 := by
  rw [turn_start_normal_response inp env tid rec v h1 h2 h3 h4 h5 h6 h7 h8 h9]
  refine ⟨?_, ?_, ?_, ?_⟩
  · simp [responseOutcomePair, h10, h11]
  · simp only [responseOutcomePair, h10, h11, if_true]
    apply List.mem_append_right
    simp [completionEffects, persistAgentEffects, h12, h13]
  · simp only [responseOutcomePair, h10, h11, if_true]
    apply List.mem_append_right
    simp [completionEffects]
  · simp only [responseOutcomePair, h10, h11, if_true]
    apply List.mem_append_right
    simp [completionEffects]

/-- A response whose error message marks the request as aborted. -/
def abortedResponse : Json :=
  Json.obj [("error", Json.obj [("message", Json.str "The request was aborted")])]

/-- An environment whose dispatch resolves to the aborted-error response with
accumulated text "partial". -/
def abortedEnv : TurnEnv :=
  { sessions := fun _ => Except.ok "snew",
    dispatch := fun _ => ⟨PromptOutcome.response abortedResponse, true, some "partial"⟩,
    setModelChanged := Except.ok false, tokenUsage := none }

/-- Witness for C7 at a concrete aborted response. -/
theorem c7_aborted_cancelled_witness :
    (turn_start (turnInputFor helloPromptParams) abortedEnv).1 =
      Except.ok (cancelledResult "turn1" "t1") ∧
    Effect.itemPersisted "t1" (build_agent_thread_item "t1" "turn1" "partial") ∈
      (turn_start (turnInputFor helloPromptParams) abortedEnv).2 ∧
    Effect.messageTouched "t1" ∈ (turn_start (turnInputFor helloPromptParams) abortedEnv).2 ∧
    turnCompletedEvent "t1" "turn1" ∈ (turn_start (turnInputFor helloPromptParams) abortedEnv).2 :=
  c7_aborted_cancelled (turnInputFor helloPromptParams) abortedEnv "t1" sampleRecordT1
    abortedResponse "The request was aborted" "partial"
    rfl rfl rfl rfl (by decide) rfl (by decide) rfl (by decide) rfl (by decide) rfl (by decide)

/-- Timeout handling adds no session creation or dispatch to the trace. -/
theorem timeoutOutcomePair_countP_zero (isBg : Bool) (tid turnId sid : String)
    (step : DispatchStep) (usage : Option Json) (msg : String) (q : Effect → Bool)
    (hq1 : ∀ t, q (Effect.itemPersisted tid (build_agent_thread_item tid turnId t)) = false)
    (hq2 : q (Effect.messageTouched tid) = false)
    (hq3 : ∀ pl, q (Effect.eventEmitted "thread/tokenUsage/updated" pl) = false)
    (hq4 : q (turnCompletedEvent tid turnId) = false) :
    (timeoutOutcomePair isBg tid turnId sid step usage msg).2.countP q = 0 := by
  rcases timeoutOutcomePair_snd isBg tid turnId sid step usage msg with h | h <;> rw [h]
  · rfl
  · exact completionEffects_countP_zero _ _ _ _ _ _ _ hq1 hq2 hq3 hq4

/-- Response handling adds no session creation or dispatch to the trace. -/
theorem responseOutcomePair_countP_zero (isBg : Bool) (tid turnId sid : String)
    (acc : Option String) (usage : Option Json) (v : Json) (q : Effect → Bool)
    (hq1 : ∀ t, q (Effect.itemPersisted tid (build_agent_thread_item tid turnId t)) = false)
    (hq2 : q (Effect.messageTouched tid) = false)
    (hq3 : ∀ pl, q (Effect.eventEmitted "thread/tokenUsage/updated" pl) = false)
    (hq4 : q (turnCompletedEvent tid turnId) = false) :
    (responseOutcomePair isBg tid turnId sid acc usage v).2.countP q = 0 := by
  rcases responseOutcomePair_snd isBg tid turnId sid acc usage v with h | h <;> rw [h]
  · rfl
  · exact completionEffects_countP_zero _ _ _ _ _ _ _ hq1 hq2 hq3 hq4

/-- C2: in the normal scenario, a first response that is a session-not-found
error causes exactly one replacement session creation, bound to the thread,
and exactly one retried dispatch under the same 90-second bounded wait (two
dispatches in total); and whenever the retried response carries an error
message (in particular a second session-not-found error) that is not an
aborted marker, the operation fails with that error and nothing else is
created or retried. -/
theorem c2_session_not_found_retry (inp : TurnInput) (env : TurnEnv) (tid : String)
    (rec : LocalThreadRecord) (v : Json) (s2 : String)
    (h1 : (inp.params.get "threadId").bind Json.asStr = some tid)
    (h2 : lookupAssoc inp.backgroundSessions tid = none)
    (h3 : inp.backgroundCallbacks.contains tid = false)
    (h4 : by_thread_id inp.records tid = some rec)
    (h5 : parse_prompt_from_turn_start inp.params ≠ "")
    (h6 : (inp.params.get "model").bind Json.asStr = none)
    (h7 : strTrim rec.session_id ≠ "")
    (h8 : (env.dispatch 0).outcome = PromptOutcome.response v)
    (h9 : is_session_not_found_error v = true)
    (h10 : env.sessions 0 = Except.ok s2) :
    (turn_start inp env).2.countP Effect.isSessionCreated = 1 ∧
    (turn_start inp env).2.countP Effect.isPromptDispatched = 2 ∧
    Effect.sessionCreated s2 ∈ (turn_start inp env).2 ∧
    Effect.sessionBound false tid s2 ∈ (turn_start inp env).2 ∧
    Effect.promptDispatched 90 s2 (parse_prompt_from_turn_start inp.params) ∈
      (turn_start inp env).2 ∧
    (∀ v2 m2, (env.dispatch 1).outcome = PromptOutcome.response v2 →
      acp_error_message v2 = some m2 → is_request_aborted_message m2 = false →
      (turn_start inp env).1 = Except.error ("turn/start failed: " ++ m2)) := by
  rw [turn_start_normal_snf inp env tid rec v s2 h1 h2 h3 h4 h5 h6 h7 h8 h9 h10]
  cases hd : (env.dispatch 1).outcome with
  | timeout =>
    refine ⟨?_, ?_, ?_, ?_, ?_, ?_⟩
    · rw [List.countP_append, List.countP_append, normalBase_countP_sessionCreated,
        timeoutOutcomePair_countP_zero _ _ _ _ _ _ _ _ (fun _ => rfl) rfl (fun _ => rfl) rfl]
      rfl
    · rw [List.countP_append, List.countP_append, normalBase_countP_promptDispatched,
        timeoutOutcomePair_countP_zero _ _ _ _ _ _ _ _ (fun _ => rfl) rfl (fun _ => rfl) rfl]
      rfl
    · simp
    · simp
    · simp
    · intro v2 m2 hv2 hm ha
      cases hv2
  | canceled msg =>
    refine ⟨?_, ?_, ?_, ?_, ?_, ?_⟩
    · rw [List.countP_append, normalBase_countP_sessionCreated]
      rfl
    · rw [List.countP_append, normalBase_countP_promptDispatched]
      rfl
    · simp
    · simp
    · simp
    · intro v2 m2 hv2 hm ha
      cases hv2
  | response v2x =>
    refine ⟨?_, ?_, ?_, ?_, ?_, ?_⟩
    · rw [List.countP_append, List.countP_append, normalBase_countP_sessionCreated,
        responseOutcomePair_countP_zero _ _ _ _ _ _ _ _ (fun _ => rfl) rfl (fun _ => rfl) rfl]
      rfl
    · rw [List.countP_append, List.countP_append, normalBase_countP_promptDispatched,
        responseOutcomePair_countP_zero _ _ _ _ _ _ _ _ (fun _ => rfl) rfl (fun _ => rfl) rfl]
      rfl
    · simp
    · simp
    · simp
    · intro v2 m2 hv2 hm ha
      cases hv2
      simp [responseOutcomePair, hm, ha]

/-- A session-not-found error response. -/
def snfResponse : Json :=
  Json.obj [("error", Json.obj [("message", Json.str "Session not found")])]

/-- An environment whose every dispatch resolves to the session-not-found
error response and whose session creation yields "s2". -/
def snfTwiceEnv : TurnEnv :=
  { sessions := fun _ => Except.ok "s2",
    dispatch := fun _ => ⟨PromptOutcome.response snfResponse, false, none⟩,
    setModelChanged := Except.ok false, tokenUsage := none }

/-- Witness for C2 at a concrete environment that reports session-not-found on
both dispatches. -/
theorem c2_session_not_found_retry_witness :
    (turn_start (turnInputFor helloPromptParams) snfTwiceEnv).2.countP
      Effect.isSessionCreated = 1 ∧
    (turn_start (turnInputFor helloPromptParams) snfTwiceEnv).2.countP
      Effect.isPromptDispatched = 2 ∧
    Effect.sessionCreated "s2" ∈ (turn_start (turnInputFor helloPromptParams) snfTwiceEnv).2 ∧
    Effect.sessionBound false "t1" "s2" ∈
      (turn_start (turnInputFor helloPromptParams) snfTwiceEnv).2 ∧
    Effect.promptDispatched 90 "s2" (parse_prompt_from_turn_start helloPromptParams) ∈
      (turn_start (turnInputFor helloPromptParams) snfTwiceEnv).2 ∧
    (∀ v2 m2, (snfTwiceEnv.dispatch 1).outcome = PromptOutcome.response v2 →
      acp_error_message v2 = some m2 → is_request_aborted_message m2 = false →
      (turn_start (turnInputFor helloPromptParams) snfTwiceEnv).1 =
        Except.error ("turn/start failed: " ++ m2)) :=
  c2_session_not_found_retry (turnInputFor helloPromptParams) snfTwiceEnv "t1" sampleRecordT1
    snfResponse "s2" rfl rfl rfl rfl (by decide) rfl (by decide) rfl (by decide) rfl
